import Mathlib

/-!
Verification of the SciXTracer local annotation index
(`src/sxt_local/index/queries.py` and `src/sxt_local/index/local.py`).

The SQLite tables are embedded as Lean lists kept in rowid (insertion)
order; each SQL statement of `queries.py` is translated into a pure
function on this state.  `schema.sql` is not part of the sources, so the
schema-level constraints it carries (UNIQUE on `data.uri`, the
NOT NULL/foreign-key on `data_annotation.data_id`, the pre-populated
`storage_type` table) are modelled from the spec where noted.
-/

namespace SxtLocal

/-- One row of `location_annotation` or of `data_annotation`:
`(entity_id, key_id, value)` where the entity is a location id or a data
id respectively.  Values are stored as text (spec section 3). -/
structure AnnRow where
  entity_id : Nat
  key_id : Nat
  value : String
deriving DecidableEq

/-- One row of the `data` table:
`data(id, location_id, type_id, uri, metadata_uri)`. -/
structure DataRow where
  id : Nat
  location_id : Nat
  type_id : Nat
  uri : String
  metadata_uri : String
deriving DecidableEq

/-- The database state of one dataset: the tables of the schema
(spec section 6), each held in rowid order, together with the next
autoincrement ids (SQLite rowids start at 1). -/
structure DB where
  locations : List Nat
  annotation_keys : List (Nat × String)
  location_annotations : List AnnRow
  data_annotations : List AnnRow
  data_rows : List DataRow
  storage_types : List (Nat × String)
  next_location_id : Nat
  next_key_id : Nat
  next_data_id : Nat
deriving DecidableEq

/-- The empty database: every table empty, rowids start at 1. -/
def db_empty : DB :=
  { locations := [], annotation_keys := [], location_annotations := [],
    data_annotations := [], data_rows := [], storage_types := [],
    next_location_id := 1, next_key_id := 1, next_data_id := 1 }

/-- Modelled from the spec: `init_database` runs `schema.sql`, which is
not under `src/`; per spec section 6 it creates the empty tables and
pre-populates `storage_type` with the closed set of recognized storage
kinds, here taken as a parameter. -/
def db_init (sts : List (Nat × String)) : DB :=
  { db_empty with storage_types := sts }

/-- The errors raised by the index code.  `duplicateURI` and
`missingEntity` come from schema constraints (modelled from the spec,
`schema.sql` being absent from `src/`); `noMatchingAnnotations` is the
`ValueError("query_data_with_annotations: No annotations to query")`;
`noneTypeHasNoItems` is the Python `AttributeError` raised by
`annotations.items()` when `annotations` is `None`;
`emptyTupleQuery` is the `IndexError` of `out_data[0]` on an empty list. -/
inductive DBErr where
  | duplicateURI
  | unknownStorageType
  | noMatchingAnnotations
  | missingEntity
  | noneTypeHasNoItems
  | emptyTupleQuery
deriving DecidableEq

/-- Whether an `Except` result is a success. -/
def is_ok {α : Type} : Except DBErr α → Bool
  | .ok _ => true
  | .error _ => false

/-- Scalar subquery `SELECT id FROM annotation_key WHERE name = k`:
the first row (rowid order) whose name matches, or NULL. -/
def lookup_key_in (tbl : List (Nat × String)) (k : String) : Option Nat :=
  (tbl.find? (fun kv => kv.2 == k)).map (fun kv => kv.1)

/-- `SELECT id FROM annotation_key WHERE name = k` against a database. -/
def lookup_key_id (db : DB) (k : String) : Option Nat :=
  lookup_key_in db.annotation_keys k

/-- `SELECT id FROM storage_type WHERE name = st`. -/
def lookup_storage_type_id (db : DB) (st : String) : Option Nat :=
  (db.storage_types.find? (fun kv => kv.2 == st)).map (fun kv => kv.1)

/-- `storage_type.name` for a given `type_id` (the INNER JOIN lookup). -/
def lookup_storage_name (db : DB) (tid : Nat) : Option String :=
  (db.storage_types.find? (fun kv => kv.1 == tid)).map (fun kv => kv.2)

/-- Scalar subquery `SELECT id FROM data WHERE uri = u`: the first data
row with that URI, or NULL. -/
def lookup_data_id_by_uri (db : DB) (u : String) : Option Nat :=
  (db.data_rows.find? (fun d => d.uri == u)).map (fun d => d.id)

/-- `insert_location`: `INSERT INTO location DEFAULT VALUES`, returning
`lastrowid`. -/
def insert_location (db : DB) : DB × Nat :=
  ({ db with locations := db.locations ++ [db.next_location_id],
             next_location_id := db.next_location_id + 1 },
   db.next_location_id)

/-- `insert_annotation_key`: look the name up; insert it and return
`lastrowid` if absent, else return the existing id. -/
def insert_annotation_key (db : DB) (k : String) : DB × Nat :=
  match lookup_key_id db k with
  | some i => (db, i)
  | none =>
      ({ db with
           annotation_keys := db.annotation_keys ++ [(db.next_key_id, k)],
           next_key_id := db.next_key_id + 1 },
       db.next_key_id)

/-- `insert_location_annotation`: intern the key, then
`INSERT INTO location_annotation (location_id, key_id, value)`. -/
def insert_location_ann (db : DB) (loc : Nat) (k v : String) : DB :=
  let p := insert_annotation_key db k
  { p.1 with
      location_annotations := p.1.location_annotations ++ [⟨loc, p.2, v⟩] }

/-- `insert_data_annotation`: intern the key, then
`INSERT INTO data_annotation (data_id, key_id, value)
 VALUES ((SELECT id FROM data WHERE uri=?), ?, ?)`.
Modelled from the spec for the failure case: `schema.sql` is not under
`src/`; per spec section 4.1 the insert "fails if URI unknown", so an
unresolved URI is an error (the key interning that precedes it has
already committed, hence the state is still updated). -/
def insert_data_ann (db : DB) (u k v : String) : DB × Except DBErr Unit :=
  let p := insert_annotation_key db k
  match lookup_data_id_by_uri p.1 u with
  | none => (p.1, .error .missingEntity)
  | some did =>
      ({ p.1 with
           data_annotations := p.1.data_annotations ++ [⟨did, p.2, v⟩] },
       .ok ())

/-- `insert_data`: resolve the storage type (error if unknown), then
`INSERT INTO data (location_id, type_id, uri, metadata_uri)`.
Modelled from the spec for the duplicate case: `schema.sql` is not under
`src/`; per spec sections 3 and 6 `data.uri` is UNIQUE, so inserting an
existing URI fails with `DuplicateURI` and changes nothing. -/
def insert_data (db : DB) (loc : Nat) (u st m : String) :
    DB × Except DBErr Nat :=
  match lookup_storage_type_id db st with
  | none => (db, .error .unknownStorageType)
  | some sid =>
      if db.data_rows.any (fun d => d.uri == u) then
        (db, .error .duplicateURI)
      else
        ({ db with
             data_rows := db.data_rows ++
               [⟨db.next_data_id, loc, sid, u, m⟩],
             next_data_id := db.next_data_id + 1 },
         .ok db.next_data_id)

/-- `query_delete`: `DELETE FROM data_annotation WHERE data_id =
(SELECT id FROM data WHERE uri=?)` — a NULL subquery matches no row —
then `DELETE FROM data WHERE uri=?`. -/
def query_delete (db : DB) (u : String) : DB :=
  let db1 :=
    match lookup_data_id_by_uri db u with
    | none => db
    | some did =>
        { db with
            data_annotations :=
              db.data_annotations.filter (fun r => r.entity_id != did) }
  { db1 with data_rows := db1.data_rows.filter (fun d => d.uri != u) }

/-- `query_annotations_conditions` compiled and evaluated on one row:
the OR over the mapping of
`key_id = (SELECT id FROM annotation_key WHERE name=k) AND value = v`. -/
def ann_cond (tbl : List (Nat × String)) (anns : List (String × String))
    (r : AnnRow) : Bool :=
  anns.any (fun kv =>
    match lookup_key_in tbl kv.1 with
    | some kid => r.key_id == kid && r.value == kv.2
    | none => false)

/-- Distinct values of a list in first-occurrence order (the grouping
keys of a `GROUP BY`). -/
def distinct_firsts (l : List Nat) : List Nat :=
  l.foldl (fun acc x => if x ∈ acc then acc else acc ++ [x]) []

/-- `GROUP BY entity_id` with `COUNT(1)` over a list of rows that
already passed the `WHERE` filter. -/
def group_count (rows : List AnnRow) : List (Nat × Nat) :=
  (distinct_firsts (rows.map (fun r => r.entity_id))).map
    (fun e => (e, (rows.filter (fun r => r.entity_id == e)).length))

/-- `query_location`: with an absent or empty mapping,
`SELECT id FROM location`; otherwise group the matching
`location_annotation` rows by location and keep the locations whose
match count equals the mapping size. -/
def query_location (db : DB) (anns : Option (List (String × String))) :
    List Nat :=
  match anns with
  | none => db.locations
  | some l =>
      if l.isEmpty then db.locations
      else
        ((group_count
            (db.location_annotations.filter
              (ann_cond db.annotation_keys l))).filter
          (fun p => p.2 == l.length)).map (fun p => p.1)

/-- Result rows `(location_id, uri, type, metadata_uri)` of the data
queries: `data INNER JOIN storage_type` restricted to `data.id IN ids`,
in data-table order. -/
def data_result_rows (db : DB) (ids : List Nat) :
    List (Nat × String × String × String) :=
  db.data_rows.filterMap (fun d =>
    if ids.contains d.id then
      (lookup_storage_name db d.type_id).map
        (fun tn => (d.location_id, d.uri, tn, d.metadata_uri))
    else none)

/-- Same join restricted to `data.location_id IN locs`. -/
def data_result_rows_by_loc (db : DB) (locs : List Nat) :
    List (Nat × String × String × String) :=
  db.data_rows.filterMap (fun d =>
    if locs.contains d.location_id then
      (lookup_storage_name db d.type_id).map
        (fun tn => (d.location_id, d.uri, tn, d.metadata_uri))
    else none)

/-- `__query_data_with_annotations_loc`: all requested keys live on
locations; count matching location-annotation rows per location and keep
the data at locations whose count equals the mapping size. -/
def q_data_loc (db : DB) (anns : List (String × String)) :
    List (Nat × String × String × String) :=
  let loc_ids :=
    ((group_count
        (db.location_annotations.filter
          (ann_cond db.annotation_keys anns))).filter
      (fun p => p.2 == anns.length)).map (fun p => p.1)
  data_result_rows_by_loc db loc_ids

/-- `__query_data_with_annotations_data`: all requested keys live on
data; count matching data-annotation rows per data id. -/
def q_data_data (db : DB) (anns : List (String × String)) :
    List (Nat × String × String × String) :=
  let data_ids :=
    ((group_count
        (db.data_annotations.filter
          (ann_cond db.annotation_keys anns))).filter
      (fun p => p.2 == anns.length)).map (fun p => p.1)
  data_result_rows db data_ids

/-- `__query_data_with_annotations_both`: split keys; per data id the
location-side count plus the data-side count must equal the mapping
size.  (The SQL joins `data_count` with `data` and with
`location_count`; a data id with no data row, or whose location has no
matching location annotation, drops out of the inner joins.  Row ids
are assumed unique, as the integer primary keys of the schema guarantee.) -/
def q_data_both (db : DB) (anns : List (String × String)) :
    List (Nat × String × String × String) :=
  let lc := group_count
    (db.location_annotations.filter (ann_cond db.annotation_keys anns))
  let dc := group_count
    (db.data_annotations.filter (ann_cond db.annotation_keys anns))
  let data_ids := dc.filterMap (fun p =>
    match db.data_rows.find? (fun d => d.id == p.1) with
    | none => none
    | some d =>
        match lc.find? (fun q => q.1 == d.location_id) with
        | none => none
        | some q =>
            if q.2 + p.2 == anns.length then some p.1 else none)
  data_result_rows db data_ids

/-- The rows of an annotation table whose key name is among `keys`
(`... INNER JOIN annotation_key ak ON ak.id = la.key_id
WHERE ak.name IN (keys)`). -/
def key_observed_rows (rows : List AnnRow) (tbl : List (Nat × String))
    (keys : List String) : List AnnRow :=
  rows.filter (fun r =>
    tbl.any (fun kv => kv.1 == r.key_id && keys.contains kv.2))

/-- Whether an annotation table has any row with key name `k`. -/
def key_observed (rows : List AnnRow) (tbl : List (Nat × String))
    (k : String) : Bool :=
  rows.any (fun r => tbl.any (fun kv => kv.1 == r.key_id && kv.2 == k))

/-- `query_data_with_annotations`: classify the requested keys by where
they are observed, dispatch to the three counting queries, and raise
when no requested key is observed in either annotation table. -/
def query_data_with_annotations (db : DB)
    (anns : List (String × String)) :
    Except DBErr (List (Nat × String × String × String)) :=
  let keys := anns.map (fun kv => kv.1)
  let loc_ann :=
    key_observed_rows db.location_annotations db.annotation_keys keys
  let data_ann :=
    key_observed_rows db.data_annotations db.annotation_keys keys
  if !loc_ann.isEmpty && !data_ann.isEmpty then .ok (q_data_both db anns)
  else if !loc_ann.isEmpty then .ok (q_data_loc db anns)
  else if !data_ann.isEmpty then .ok (q_data_data db anns)
  else .error .noMatchingAnnotations

/-- A row of the tuple query: the shared `location_id` together with the
`(uri, type, metadata_uri)` column groups accumulated by the joins. -/
abbrev TupleRow := Nat × List (String × String × String)

/-- The first result set, as the initial dataframe of the merge loop. -/
def init_tuples (rows : List (Nat × String × String × String)) :
    List TupleRow :=
  rows.map (fun r => (r.1, [r.2]))

/-- One `pandas.merge` step: inner join on `location_id`, left row
order preserved, the columns of the new result set appended with a suffix. -/
def merge_on_location (left : List TupleRow)
    (right : List (Nat × String × String × String)) : List TupleRow :=
  left.flatMap (fun lr =>
    (right.filter (fun r => r.1 == lr.1)).map
      (fun r => (lr.1, lr.2 ++ [r.2])))

/-- The merge loop of `query_data_tuples` over the remaining mappings. -/
def query_data_tuples_go (db : DB)
    (anns : List (List (String × String))) (acc : List TupleRow) :
    Except DBErr (List TupleRow) :=
  match anns with
  | [] => .ok acc
  | a :: rest =>
      match query_data_with_annotations db a with
      | .error e => .error e
      | .ok rs => query_data_tuples_go db rest (merge_on_location acc rs)

/-- `query_data_tuples`: run the intersection query once per mapping and
inner-join the result sets pairwise on `location_id`.  An empty list of
mappings is the `IndexError` of `out_data[0]` in the source. -/
def query_data_tuples (db : DB) (anns : List (List (String × String))) :
    Except DBErr (List TupleRow) :=
  match anns with
  | [] => .error .emptyTupleQuery
  | a :: rest =>
      match query_data_with_annotations db a with
      | .error e => .error e
      | .ok rs => query_data_tuples_go db rest (init_tuples rs)

/-- The annotation loop of `SxIndexLocal.new_location`. -/
def annotate_all (db : DB) (loc : Nat)
    (anns : List (String × String)) : DB :=
  anns.foldl (fun d kv => insert_location_ann d loc kv.1 kv.2) db

/-- `SxIndexLocal.new_location`: insert a location row, then annotate it
with each pair of the (optional) mapping. -/
def new_location (db : DB) (anns : Option (List (String × String))) :
    DB × Nat :=
  let p := insert_location db
  match anns with
  | none => p
  | some l => (annotate_all p.1 p.2 l, p.2)

/-- The `location` argument of `SxIndexLocal.create_data`: a `Dataset`
(mint a fresh location) or an existing `Location`. -/
inductive LocArg where
  | dataset
  | at_loc (uuid : Nat)
deriving DecidableEq

/-- The `DataInfo` returned by `SxIndexLocal.create_data`. -/
structure DataInfo where
  location_id : Nat
  storage_type : String
  metadata_uri : String
  uri : String
deriving DecidableEq

/-- The data-annotation loop of `SxIndexLocal.create_data`. -/
def data_ann_all (db : DB) (u : String)
    (anns : List (String × String)) : DB × Except DBErr Unit :=
  match anns with
  | [] => (db, .ok ())
  | kv :: rest =>
      let p := insert_data_ann db u kv.1 kv.2
      match p.2 with
      | .error e => (p.1, .error e)
      | .ok _ => data_ann_all p.1 u rest

/-- `SxIndexLocal.create_data`: resolve the location (minting one when a
dataset is passed), insert the data row, then iterate
`annotations.items()` — which on the default `None` raises the Python
`AttributeError`, after the data row has already been committed. -/
def create_data (db : DB) (loc : LocArg) (u st : String)
    (anns : Option (List (String × String))) (m : Option String) :
    DB × Except DBErr DataInfo :=
  let p0 := match loc with
    | .dataset => insert_location db
    | .at_loc uuid => (db, uuid)
  let mstr := match m with
    | none => ""
    | some s => s
  let p1 := insert_data p0.1 p0.2 u st mstr
  match p1.2 with
  | .error e => (p1.1, .error e)
  | .ok _ =>
      match anns with
      | none => (p1.1, .error .noneTypeHasNoItems)
      | some l =>
          let p2 := data_ann_all p1.1 u l
          match p2.2 with
          | .error e => (p2.1, .error e)
          | .ok _ => (p2.1, .ok ⟨p0.2, st, mstr, u⟩)

/-- The mutating operations of the store, for invariant preservation. -/
inductive Op where
  | newLoc
  | annKey (k : String)
  | locAnn (loc : Nat) (k v : String)
  | dataAnn (u k v : String)
  | newData (loc : Nat) (u st m : String)
  | delData (u : String)

/-- Apply one operation; a failing operation leaves the state that the
source leaves behind (for `insert_data_ann`, the key interning that
preceded the failing insert). -/
def apply_op (db : DB) : Op → DB
  | .newLoc => (insert_location db).1
  | .annKey k => (insert_annotation_key db k).1
  | .locAnn loc k v => insert_location_ann db loc k v
  | .dataAnn u k v => (insert_data_ann db u k v).1
  | .newData loc u st m => (insert_data db loc u st m).1
  | .delData u => query_delete db u

/-- Apply a sequence of operations in order. -/
def apply_ops (db : DB) (ops : List Op) : DB :=
  ops.foldl apply_op db

/-- Every data id is below the autoincrement counter. -/
def data_ids_bounded (db : DB) : Prop :=
  ∀ d ∈ db.data_rows, d.id < db.next_data_id

/-- Data URIs are pairwise distinct (the UNIQUE constraint). -/
def data_uris_nodup (db : DB) : Prop :=
  (db.data_rows.map (fun d => d.uri)).Nodup

/-- Every data-annotation row references an existing data row. -/
def data_ann_fk (db : DB) : Prop :=
  ∀ r ∈ db.data_annotations, ∃ d ∈ db.data_rows, d.id = r.entity_id

/-- Well-formedness of the data tables. -/
def WFdata (db : DB) : Prop :=
  data_ids_bounded db ∧ data_uris_nodup db ∧ data_ann_fk db

/-- The state after `create_data` at a location followed by
`delete_data` on the same URI. -/
def c6_after (db : DB) (loc : Nat) (u st m : String)
    (anns : List (String × String)) : DB :=
  query_delete
    (create_data db (.at_loc loc) u st (some anns) (some m)).1 u

/-- The state right after a successful data-row insert: the row is
appended and the autoincrement counter bumped. -/
def c6_mid (db : DB) (loc sid : Nat) (u m : String) : DB :=
  { db with
      data_rows := db.data_rows ++ [⟨db.next_data_id, loc, sid, u, m⟩],
      next_data_id := db.next_data_id + 1 }

/-- Key ids handed out in sequence by the interning of a run of fresh
keys, paired with the key names. -/
def number_keys (start : Nat) (anns : List (String × String)) :
    List (Nat × String) :=
  match anns with
  | [] => []
  | kv :: rest => (start, kv.1) :: number_keys (start + 1) rest

/-- The location-annotation rows written for a run of fresh keys. -/
def number_rows (loc start : Nat) (anns : List (String × String)) :
    List AnnRow :=
  match anns with
  | [] => []
  | kv :: rest => ⟨loc, start, kv.2⟩ :: number_rows loc (start + 1) rest

/-- Iterate `insert_annotation_key` on the same name: `n + 1` calls. -/
def insert_key_times (db : DB) (k : String) : Nat → DB × Nat
  | 0 => insert_annotation_key db k
  | n + 1 => insert_annotation_key (insert_key_times db k n).1 k

/-- A location annotated twice with the same key `k`, first with `v1`
and then with `v2`, and no other location or entity. -/
def c3_db (k v1 v2 : String) : DB :=
  insert_location_ann
    (insert_location_ann (new_location db_empty none).1 1 k v1) 1 k v2

/-- One location annotated with `k1 = v` and nothing else: the key `k1`
is observed, any other key is not. -/
def c2_db : DB := (new_location (db_init []) (some [("k1", "v")])).1

/-- One location holding one data item with no annotations at all. -/
def c4_db : DB :=
  (create_data (new_location (db_init [(1, "image")]) none).1
    (.at_loc 1) "u1" "image" (some []) none).1

/-- One location holding two data items tagged `channel = "0"` and
`channel = "1"` respectively. -/
def c5_db : DB :=
  (create_data
    (create_data (new_location (db_init [(1, "image")]) none).1
      (.at_loc 1) "uri1" "image" (some [("channel", "0")]) none).1
    (.at_loc 1) "uri2" "image" (some [("channel", "1")]) none).1

/-- A dataset already holding a data row with URI `"u"`. -/
def c7_db : DB :=
  (create_data (db_init [(1, "image")])
    (.at_loc 1) "u" "image" (some []) none).1

instance (db : DB) : Decidable (data_ids_bounded db) :=
  inferInstanceAs (Decidable (∀ d ∈ db.data_rows, d.id < db.next_data_id))

instance (db : DB) : Decidable (data_uris_nodup db) :=
  inferInstanceAs
    (Decidable ((db.data_rows.map (fun d : DataRow => d.uri)).Nodup))

instance (db : DB) : Decidable (data_ann_fk db) :=
  inferInstanceAs
    (Decidable (∀ r ∈ db.data_annotations,
      ∃ d ∈ db.data_rows, d.id = r.entity_id))

instance (db : DB) : Decidable (WFdata db) :=
  inferInstanceAs (Decidable (_ ∧ _ ∧ _))

lemma find?_first_none {α : Type} {p : α → Bool} {l1 : List α}
    (l2 : List α) (h : l1.find? p = none) :
    (l1 ++ l2).find? p = l2.find? p := by
  rw [List.find?_append, h, Option.none_or]

lemma lookup_key_in_append_none {A : List (Nat × String)}
    (B : List (Nat × String)) {k : String}
    (h : lookup_key_in A k = none) :
    lookup_key_in (A ++ B) k = lookup_key_in B k := by
  have hA : A.find? (fun kv => kv.2 == k) = none := by
    cases hf : A.find? (fun kv => kv.2 == k) with
    | none => rfl
    | some kv => unfold lookup_key_in at h; rw [hf] at h; simp at h
  unfold lookup_key_in
  rw [find?_first_none _ hA]

/-- Claim C4 (amended): `query_location` with an absent or empty mapping
returns all locations of the dataset unconditionally; the data query
`query_data_with_annotations`, however, raises its no-annotations error
on an empty mapping instead of matching every entity. -/
theorem C4_empty_mapping (db : DB) :
    query_location db none = db.locations ∧
    query_location db (some []) = db.locations ∧
    query_data_with_annotations db [] = .error .noMatchingAnnotations := by
  refine ⟨rfl, rfl, ?_⟩
  simp [query_data_with_annotations, key_observed_rows]

/-- Claim C4, counterexample to the claim as stated: on a dataset whose
single data item carries no annotations, the data query with an empty
mapping raises rather than matching the entity. -/
theorem C4_counterexample :
    is_ok (query_data_with_annotations c4_db []) = false ∧
    c4_db.data_rows.length = 1 := by
  exact ⟨rfl, rfl⟩

/-- Claim C3 (amended): a location annotated twice with the same key
`k`, first with `v1` and then with a different `v2`, IS still returned
by a superset query requiring `k` with the first value `v1` (the second
row simply does not match the compiled predicate, so the match count
still equals the mapping size). -/
theorem C3_double_value_returned (k v1 v2 : String) (h : v1 ≠ v2) :
    query_location (c3_db k v1 v2) (some [(k, v1)]) = [1] := by
  have hb : (v2 == v1) = false := by
    simp only [beq_eq_false_iff_ne, ne_eq]
    exact fun hx => h hx.symm
  simp [c3_db, new_location, insert_location, db_empty, insert_location_ann,
        insert_annotation_key, lookup_key_id, lookup_key_in,
        query_location, ann_cond, group_count, distinct_firsts, hb]

/-- Claim C3, witness. -/
theorem C3_double_value_returned_witness :
    query_location (c3_db "k" "a" "b") (some [("k", "a")]) = [1] :=
  C3_double_value_returned "k" "a" "b" (by decide)

/-- Claim C3, counterexample to the claim as stated: the location
annotated `k = "a"` then `k = "b"` is returned by the query requiring
`k = "a"`, contradicting the claimed non-membership. -/
theorem C3_counterexample :
    1 ∈ query_location (c3_db "k" "a" "b") (some [("k", "a")]) := by
  decide

/-- Claim C7: inserting a data row whose URI already exists fails with
`DuplicateURI` and leaves the database unchanged (no second row),
provided the storage type resolves (the source resolves the storage
type before the insert). -/
theorem C7_duplicate_uri (db : DB) (loc : Nat) (u st m : String)
    (hdup : ∃ d ∈ db.data_rows, d.uri = u)
    (hst : ∃ sid, lookup_storage_type_id db st = some sid) :
    insert_data db loc u st m = (db, .error .duplicateURI) := by
  obtain ⟨sid, hs⟩ := hst
  have hany : db.data_rows.any (fun d => d.uri == u) = true := by
    obtain ⟨d, hd, he⟩ := hdup
    exact List.any_eq_true.mpr ⟨d, hd, by simp [he]⟩
  simp [insert_data, hs, hany]

/-- Claim C7, witness. -/
theorem C7_duplicate_uri_witness :
    insert_data c7_db 1 "u" "image" "" = (c7_db, .error .duplicateURI) :=
  C7_duplicate_uri c7_db 1 "u" "image" ""
    ⟨⟨1, 1, 1, "u", ""⟩, by decide, rfl⟩ ⟨1, rfl⟩

/-- Claim C10: `create_data` with the annotations argument left at its
default `None` always fails before returning a `DataInfo`: either the
data insert itself raises, or the unconditional `annotations.items()`
raises the Python `AttributeError`. -/
theorem C10_none_annotations_fail (db : DB) (loc : LocArg)
    (u st : String) (m : Option String) :
    ∃ e, (create_data db loc u st none m).2 = .error e := by
  simp only [create_data]
  split
  · next e _ => exact ⟨e, rfl⟩
  · exact ⟨.noneTypeHasNoItems, rfl⟩

/-- Claim C5: the tuple query runs the intersection query once per
mapping and inner-joins the per-mapping result sets pairwise on
`location_id`; on two data items at one location tagged
`channel = "0"` and `channel = "1"`, it returns exactly one tuple row
pairing both. -/
theorem C5_tuple_query :
    (∀ (db : DB) (a b : List (String × String)),
      query_data_tuples db [a, b] =
        (query_data_with_annotations db a).bind (fun ra =>
          (query_data_with_annotations db b).map (fun rb =>
            merge_on_location (init_tuples ra) rb))) ∧
    query_data_tuples c5_db [[("channel", "0")], [("channel", "1")]] =
      .ok [(1, [("uri1", "image", ""), ("uri2", "image", "")])] := by
  constructor
  · intro db a b
    cases h1 : query_data_with_annotations db a <;>
      cases h2 : query_data_with_annotations db b <;>
        simp [query_data_tuples, query_data_tuples_go, h1, h2,
              Except.bind, Except.map]
  · rfl

lemma key_observed_rows_eq_nil {rows : List AnnRow}
    {tbl : List (Nat × String)} {keys : List String}
    (h : ∀ k ∈ keys, key_observed rows tbl k = false) :
    key_observed_rows rows tbl keys = [] := by
  unfold key_observed_rows
  rw [List.filter_eq_nil_iff]
  intro r hr hpred
  obtain ⟨kv, hkv, hp⟩ := List.any_eq_true.mp hpred
  rw [Bool.and_eq_true] at hp
  obtain ⟨h1, h2⟩ := hp
  have hkmem : kv.2 ∈ keys := by simpa using h2
  have hobs : key_observed rows tbl kv.2 = true :=
    List.any_eq_true.mpr
      ⟨r, hr, List.any_eq_true.mpr ⟨kv, hkv, by simp [h1]⟩⟩
  rw [h kv.2 hkmem] at hobs
  exact Bool.false_ne_true hobs

/-- Claim C2 (amended): when NONE of the requested keys is observed in
either the location-annotation table or the data-annotation table, the
data query fails with the no-matching-annotations error rather than
returning an empty result.  (When at least one requested key is
observed, the query proceeds even if another requested key exists
nowhere — see the counterexample.) -/
theorem C2_no_key_observed (db : DB) (anns : List (String × String))
    (_hne : anns ≠ [])
    (hloc : ∀ k ∈ anns.map (fun kv => kv.1),
        key_observed db.location_annotations db.annotation_keys k = false)
    (hdat : ∀ k ∈ anns.map (fun kv => kv.1),
        key_observed db.data_annotations db.annotation_keys k = false) :
    query_data_with_annotations db anns = .error .noMatchingAnnotations := by
  have e1 := key_observed_rows_eq_nil hloc
  have e2 := key_observed_rows_eq_nil hdat
  simp [query_data_with_annotations, e1, e2]

/-- Claim C2, witness. -/
theorem C2_no_key_observed_witness :
    query_data_with_annotations db_empty [("x", "y")] =
      .error .noMatchingAnnotations :=
  C2_no_key_observed db_empty [("x", "y")] (by decide) (by decide)
    (by decide)

/-- Claim C2, counterexample to the claim as stated: the key `"k2"` is
observed in neither annotation table, yet the query for
`{k1: v, k2: w}` (with `"k1"` observed) returns the empty result
instead of failing. -/
theorem C2_counterexample :
    query_data_with_annotations c2_db [("k1", "v"), ("k2", "w")] =
        .ok [] ∧
    key_observed c2_db.location_annotations c2_db.annotation_keys "k2" =
        false ∧
    key_observed c2_db.data_annotations c2_db.annotation_keys "k2" =
        false := by
  exact ⟨rfl, rfl, rfl⟩

lemma lookup_key_in_none_iff {A : List (Nat × String)} {k : String} :
    lookup_key_in A k = none ↔
      A.find? (fun kv => kv.2 == k) = none := by
  unfold lookup_key_in
  cases A.find? (fun kv => kv.2 == k) <;> simp

lemma lookup_key_in_some {A : List (Nat × String)} {k : String} {i : Nat}
    (h : lookup_key_in A k = some i) :
    ∃ kv, A.find? (fun kv => kv.2 == k) = some kv ∧ kv.1 = i := by
  unfold lookup_key_in at h
  cases hf : A.find? (fun kv => kv.2 == k) with
  | none => rw [hf] at h; simp at h
  | some kv => rw [hf] at h; simp at h; exact ⟨kv, rfl, h⟩

/-- Claim C9: interning an annotation key is idempotent — given that the
name occurs at most once (the UNIQUE constraint), one call leaves
exactly one row with that name, and every further call returns the very
same id and state. -/
theorem C9_intern_idempotent (db : DB) (k : String)
    (h : (db.annotation_keys.filter (fun kv => kv.2 == k)).length ≤ 1) :
    ((insert_annotation_key db k).1.annotation_keys.filter
        (fun kv => kv.2 == k)).length = 1 ∧
    ∀ n, insert_key_times db k n = insert_annotation_key db k := by
  have hidem : insert_annotation_key (insert_annotation_key db k).1 k
      = insert_annotation_key db k := by
    cases hl : lookup_key_id db k with
    | some i =>
        have hstep : insert_annotation_key db k = (db, i) := by
          simp [insert_annotation_key, hl]
        rw [hstep]
        exact hstep
    | none =>
        have hstep : insert_annotation_key db k =
            ({ db with
                 annotation_keys :=
                   db.annotation_keys ++ [(db.next_key_id, k)],
                 next_key_id := db.next_key_id + 1 }, db.next_key_id) := by
          simp [insert_annotation_key, hl]
        have hl2 : lookup_key_id
            ({ db with
                 annotation_keys :=
                   db.annotation_keys ++ [(db.next_key_id, k)],
                 next_key_id := db.next_key_id + 1 } : DB) k
            = some db.next_key_id := by
          show lookup_key_in (db.annotation_keys ++ [(db.next_key_id, k)]) k
              = some db.next_key_id
          rw [lookup_key_in_append_none _ hl]
          simp [lookup_key_in]
        rw [hstep]
        simp [insert_annotation_key, hl2]
  refine ⟨?_, ?_⟩
  · cases hl : lookup_key_id db k with
    | some i =>
        have hstep : insert_annotation_key db k = (db, i) := by
          simp [insert_annotation_key, hl]
        rw [hstep]
        obtain ⟨kv, hfind, _⟩ := lookup_key_in_some hl
        have hkvp : (kv.2 == k) = true :=
          List.find?_some (p := fun kv : Nat × String => kv.2 == k) hfind
        have hpos :
            0 < (db.annotation_keys.filter (fun kv => kv.2 == k)).length := by
          have hmem : kv ∈ db.annotation_keys.filter (fun kv => kv.2 == k) :=
            List.mem_filter.mpr
              ⟨List.mem_of_find?_eq_some hfind, hkvp⟩
          exact List.length_pos.mpr (List.ne_nil_of_mem hmem)
        show (db.annotation_keys.filter (fun kv => kv.2 == k)).length = 1
        omega
    | none =>
        have hstep : insert_annotation_key db k =
            ({ db with
                 annotation_keys :=
                   db.annotation_keys ++ [(db.next_key_id, k)],
                 next_key_id := db.next_key_id + 1 }, db.next_key_id) := by
          simp [insert_annotation_key, hl]
        rw [hstep]
        have hnil : db.annotation_keys.filter (fun kv => kv.2 == k) = [] := by
          rw [List.filter_eq_nil_iff]
          intro kv hkv hp
          exact absurd hp
            (List.find?_eq_none.mp (lookup_key_in_none_iff.mp hl) kv hkv)
        simp [List.filter_append, hnil]
  · intro n
    induction n with
    | zero => rfl
    | succ n ih => rw [insert_key_times, ih, hidem]

/-- Claim C9, witness. -/
theorem C9_intern_idempotent_witness :
    ((insert_annotation_key db_empty "k").1.annotation_keys.filter
        (fun kv => kv.2 == "k")).length = 1 ∧
    insert_key_times db_empty "k" 3 = insert_annotation_key db_empty "k" :=
  ⟨(C9_intern_idempotent db_empty "k" (by decide)).1,
   (C9_intern_idempotent db_empty "k" (by decide)).2 3⟩

lemma insert_annotation_key_data_fields (db : DB) (k : String) :
    (insert_annotation_key db k).1.data_rows = db.data_rows ∧
    (insert_annotation_key db k).1.data_annotations = db.data_annotations ∧
    (insert_annotation_key db k).1.storage_types = db.storage_types ∧
    (insert_annotation_key db k).1.next_data_id = db.next_data_id := by
  unfold insert_annotation_key
  cases lookup_key_id db k <;> simp

lemma lookup_data_id_by_uri_some {db : DB} {u : String} {did : Nat}
    (h : lookup_data_id_by_uri db u = some did) :
    ∃ d ∈ db.data_rows, d.uri = u ∧ d.id = did := by
  unfold lookup_data_id_by_uri at h
  cases hf : db.data_rows.find? (fun d => d.uri == u) with
  | none => rw [hf] at h; simp at h
  | some d0 =>
      rw [hf] at h
      simp at h
      have hp : (d0.uri == u) = true :=
        List.find?_some (p := fun d : DataRow => d.uri == u) hf
      exact ⟨d0, List.mem_of_find?_eq_some hf, by simpa using hp, h⟩

lemma filtered_uris_nodup {l : List DataRow} (p : DataRow → Bool)
    (h : (l.map (fun d : DataRow => d.uri)).Nodup) :
    ((l.filter p).map (fun d : DataRow => d.uri)).Nodup :=
  List.Nodup.sublist ((List.filter_sublist l).map (fun d => d.uri)) h

lemma wf_apply_op (db : DB) (op : Op) (h : WFdata db) :
    WFdata (apply_op db op) := by
  obtain ⟨hb, hu, hfk⟩ := h
  cases op with
  | newLoc => exact ⟨hb, hu, hfk⟩
  | annKey k =>
      show WFdata (insert_annotation_key db k).1
      obtain ⟨e1, e2, _, e4⟩ := insert_annotation_key_data_fields db k
      exact ⟨by unfold data_ids_bounded; rw [e1, e4]; exact hb,
             by unfold data_uris_nodup; rw [e1]; exact hu,
             by unfold data_ann_fk; rw [e1, e2]; exact hfk⟩
  | locAnn loc k v =>
      show WFdata (insert_location_ann db loc k v)
      unfold insert_location_ann
      obtain ⟨e1, e2, _, e4⟩ := insert_annotation_key_data_fields db k
      exact ⟨by unfold data_ids_bounded; simp only []; rw [e1, e4]; exact hb,
             by unfold data_uris_nodup; simp only []; rw [e1]; exact hu,
             by unfold data_ann_fk; simp only []; rw [e1, e2]; exact hfk⟩
  | dataAnn u k v =>
      show WFdata (insert_data_ann db u k v).1
      unfold insert_data_ann
      obtain ⟨e1, e2, _, e4⟩ := insert_annotation_key_data_fields db k
      cases hl : lookup_data_id_by_uri (insert_annotation_key db k).1 u with
      | none =>
          simp only [hl]
          exact ⟨by unfold data_ids_bounded; rw [e1, e4]; exact hb,
                 by unfold data_uris_nodup; rw [e1]; exact hu,
                 by unfold data_ann_fk; rw [e1, e2]; exact hfk⟩
      | some did =>
          simp only [hl]
          refine ⟨by unfold data_ids_bounded; simp only []; rw [e1, e4]; exact hb,
                  by unfold data_uris_nodup; simp only []; rw [e1]; exact hu,
                  ?_⟩
          unfold data_ann_fk
          simp only []
          rw [e1, e2]
          intro r hr
          rcases List.mem_append.mp hr with hold | hnew
          · exact hfk r hold
          · obtain ⟨d0, hd0, _, hid⟩ := lookup_data_id_by_uri_some hl
            rw [e1] at hd0
            rw [List.mem_singleton.mp hnew]
            exact ⟨d0, hd0, hid⟩
  | newData loc u st m =>
      show WFdata (insert_data db loc u st m).1
      unfold insert_data
      cases hs : lookup_storage_type_id db st with
      | none => exact ⟨hb, hu, hfk⟩
      | some sid =>
          simp only [hs]
          by_cases hdup : db.data_rows.any (fun d => d.uri == u) = true
          · simp only [hdup, if_true]
            exact ⟨hb, hu, hfk⟩
          · have hdup2 : db.data_rows.any (fun d => d.uri == u) = false :=
              Bool.eq_false_iff.mpr hdup
            simp only [hdup2, Bool.false_eq_true, if_false]
            refine ⟨?_, ?_, ?_⟩
            · intro d hd
              rcases List.mem_append.mp hd with hold | hnew
              · exact Nat.lt_succ_of_lt (hb d hold)
              · rw [List.mem_singleton.mp hnew]
                exact Nat.lt_succ_self _
            · unfold data_uris_nodup
              simp only []
              rw [List.map_append, List.nodup_append]
              refine ⟨hu, List.nodup_singleton u, ?_⟩
              intro a ha hamem
              obtain ⟨d, hd, hda⟩ := List.mem_map.mp ha
              have : a = u := by simpa using hamem
              rw [this] at hda
              have : db.data_rows.any (fun d => d.uri == u) = true :=
                List.any_eq_true.mpr ⟨d, hd, by simp [hda]⟩
              rw [hdup2] at this
              exact Bool.false_ne_true this
            · intro r hr
              obtain ⟨d, hd, hid⟩ := hfk r hr
              exact ⟨d, List.mem_append_left _ hd, hid⟩
  | delData u =>
      show WFdata (query_delete db u)
      unfold query_delete
      cases hl : lookup_data_id_by_uri db u with
      | none =>
          simp only [hl]
          have hnone : ∀ d ∈ db.data_rows, ¬(d.uri == u) = true := by
            have : db.data_rows.find? (fun d => d.uri == u) = none := by
              unfold lookup_data_id_by_uri at hl
              cases hf : db.data_rows.find? (fun d => d.uri == u) with
              | none => rfl
              | some d0 => rw [hf] at hl; simp at hl
            exact List.find?_eq_none.mp this
          refine ⟨?_, ?_, ?_⟩
          · intro d hd
            exact hb d (List.mem_filter.mp hd).1
          · exact filtered_uris_nodup _ hu
          · intro r hr
            obtain ⟨d, hd, hid⟩ := hfk r hr
            refine ⟨d, List.mem_filter.mpr ⟨hd, ?_⟩, hid⟩
            simpa using hnone d hd
      | some did =>
          simp only [hl]
          obtain ⟨d0, hd0, hd0u, hd0id⟩ := lookup_data_id_by_uri_some hl
          refine ⟨?_, ?_, ?_⟩
          · intro d hd
            exact hb d (List.mem_filter.mp hd).1
          · exact filtered_uris_nodup _ hu
          · intro r hr
            have hrmem := (List.mem_filter.mp hr).1
            have hrne : (r.entity_id != did) = true :=
              (List.mem_filter.mp hr).2
            obtain ⟨d, hd, hid⟩ := hfk r hrmem
            refine ⟨d, List.mem_filter.mpr ⟨hd, ?_⟩, hid⟩
            simp only [bne_iff_ne, ne_eq]
            intro hdu
            have hdd0 : d = d0 :=
              List.inj_on_of_nodup_map hu hd hd0 (by rw [hdu, hd0u])
            rw [bne_iff_ne] at hrne
            exact hrne (by rw [← hid, hdd0, hd0id])

lemma wf_apply_ops :
    ∀ (ops : List Op) (db : DB), WFdata db → WFdata (apply_ops db ops) := by
  intro ops
  induction ops with
  | nil => intro db h; exact h
  | cons op rest ih => intro db h; exact ih _ (wf_apply_op db op h)

/-- Claim C8: `insert_data_annotation` resolves the URI internally and
fails with the missing-entity error when no data row carries it; and
after every sequence of store operations starting from a well-formed
state, every data-annotation row references an existing data row. -/
theorem C8_annotation_fk :
    (∀ (db : DB) (u k v : String), (∀ d ∈ db.data_rows, d.uri ≠ u) →
        (insert_data_ann db u k v).2 = .error .missingEntity) ∧
    (∀ (db : DB) (ops : List Op), WFdata db →
        data_ann_fk (apply_ops db ops)) := by
  constructor
  · intro db u k v h
    unfold insert_data_ann
    have hnone :
        lookup_data_id_by_uri (insert_annotation_key db k).1 u = none := by
      unfold lookup_data_id_by_uri
      rw [(insert_annotation_key_data_fields db k).1]
      rw [List.find?_eq_none.mpr (fun d hd => by simpa using h d hd)]
      rfl
    simp only [hnone]
  · intro db ops h
    exact (wf_apply_ops ops db h).2.2

/-- Claim C8, witness. -/
theorem C8_annotation_fk_witness :
    (insert_data_ann db_empty "u" "k" "v").2 = .error .missingEntity ∧
    data_ann_fk (apply_ops (db_init [(1, "image")])
      [Op.newLoc, Op.newData 1 "u" "image" "", Op.dataAnn "u" "kk" "vv"]) :=
  ⟨C8_annotation_fk.1 db_empty "u" "k" "v" (by decide),
   C8_annotation_fk.2 (db_init [(1, "image")])
     [Op.newLoc, Op.newData 1 "u" "image" "", Op.dataAnn "u" "kk" "vv"]
     (by decide)⟩

lemma annotate_all_fresh (loc : Nat) :
    ∀ (anns : List (String × String)) (db : DB),
      (anns.map (fun kv => kv.1)).Nodup →
      (∀ k ∈ anns.map (fun kv => kv.1), lookup_key_id db k = none) →
      (annotate_all db loc anns).annotation_keys
          = db.annotation_keys ++ number_keys db.next_key_id anns
      ∧ (annotate_all db loc anns).location_annotations
          = db.location_annotations ++ number_rows loc db.next_key_id anns
      ∧ (annotate_all db loc anns).locations = db.locations := by
  intro anns
  induction anns with
  | nil =>
      intro db _ _
      exact ⟨by simp [annotate_all, number_keys],
             by simp [annotate_all, number_rows], rfl⟩
  | cons kv rest ih =>
      intro db hnodup hfresh
      have hhead : lookup_key_id db kv.1 = none := hfresh _ (by simp)
      have hstep : insert_location_ann db loc kv.1 kv.2 =
          { db with
              annotation_keys :=
                db.annotation_keys ++ [(db.next_key_id, kv.1)],
              location_annotations :=
                db.location_annotations ++ [⟨loc, db.next_key_id, kv.2⟩],
              next_key_id := db.next_key_id + 1 } := by
        simp [insert_location_ann, insert_annotation_key, hhead]
      have hchain : annotate_all db loc (kv :: rest)
          = annotate_all (insert_location_ann db loc kv.1 kv.2) loc rest := by
        simp [annotate_all]
      have hknotin : kv.1 ∉ rest.map (fun kv => kv.1) :=
        (List.nodup_cons.mp (by simpa using hnodup)).1
      have hfresh1 : ∀ k ∈ rest.map (fun kv => kv.1),
          lookup_key_id (insert_location_ann db loc kv.1 kv.2) k = none := by
        intro k hk
        rw [hstep]
        show lookup_key_in
            (db.annotation_keys ++ [(db.next_key_id, kv.1)]) k = none
        rw [lookup_key_in_append_none _ (hfresh _ (by simp [hk]))]
        have hne : (kv.1 == k) = false := by
          simp only [beq_eq_false_iff_ne, ne_eq]
          intro he
          exact hknotin (he ▸ hk)
        simp [lookup_key_in, hne]
      obtain ⟨ha, hl, hc⟩ := ih (insert_location_ann db loc kv.1 kv.2)
        ((List.nodup_cons.mp (by simpa using hnodup)).2) hfresh1
      rw [hchain]
      refine ⟨?_, ?_, ?_⟩
      · rw [ha, hstep]
        simp [number_keys, List.append_assoc]
      · rw [hl, hstep]
        simp [number_rows, List.append_assoc]
      · rw [hc, hstep]

lemma number_rows_match (loc : Nat) :
    ∀ (anns : List (String × String)) (A : List (Nat × String))
      (start : Nat),
      (anns.map (fun kv => kv.1)).Nodup →
      (∀ k ∈ anns.map (fun kv => kv.1), lookup_key_in A k = none) →
      ∀ r ∈ number_rows loc start anns,
        ann_cond (A ++ number_keys start anns) anns r = true := by
  intro anns
  induction anns with
  | nil => intro A start _ _ r hr; simp [number_rows] at hr
  | cons kv rest ih =>
      intro A start hnodup hfresh r hr
      rw [number_rows] at hr
      rcases List.mem_cons.mp hr with rfl | hr2
      · apply List.any_eq_true.mpr
        refine ⟨kv, by simp, ?_⟩
        have hl : lookup_key_in (A ++ number_keys start (kv :: rest)) kv.1
            = some start := by
          rw [lookup_key_in_append_none _ (hfresh _ (by simp))]
          simp [number_keys, lookup_key_in]
        simp [hl]
      · have hknotin : kv.1 ∉ rest.map (fun kv => kv.1) :=
          (List.nodup_cons.mp (by simpa using hnodup)).1
        have hfresh2 : ∀ k ∈ rest.map (fun kv => kv.1),
            lookup_key_in (A ++ [(start, kv.1)]) k = none := by
          intro k hk
          rw [lookup_key_in_append_none _ (hfresh _ (by simp [hk]))]
          have hne : (kv.1 == k) = false := by
            simp only [beq_eq_false_iff_ne, ne_eq]
            intro he
            exact hknotin (he ▸ hk)
          simp [lookup_key_in, hne]
        have hlift := ih (A ++ [(start, kv.1)]) (start + 1)
          ((List.nodup_cons.mp (by simpa using hnodup)).2) hfresh2 r hr2
        rw [List.append_assoc, List.singleton_append] at hlift
        apply List.any_eq_true.mpr
        obtain ⟨x, hx, hpx⟩ := List.any_eq_true.mp hlift
        exact ⟨x, by simp [hx], by rw [number_keys]; exact hpx⟩

lemma number_rows_entity (loc : Nat) :
    ∀ (anns : List (String × String)) (start : Nat),
      ∀ r ∈ number_rows loc start anns, r.entity_id = loc := by
  intro anns
  induction anns with
  | nil => intro start r hr; simp [number_rows] at hr
  | cons kv rest ih =>
      intro start r hr
      rw [number_rows] at hr
      rcases List.mem_cons.mp hr with rfl | hr2
      · rfl
      · exact ih (start + 1) r hr2

lemma number_rows_length (loc : Nat) :
    ∀ (anns : List (String × String)) (start : Nat),
      (number_rows loc start anns).length = anns.length := by
  intro anns
  induction anns with
  | nil => intro start; rfl
  | cons kv rest ih => intro start; simp [number_rows, ih]

lemma foldl_distinct_mem (e : Nat) :
    ∀ (l : List Nat) (acc : List Nat), (∀ x ∈ l, x = e) → e ∈ acc →
      List.foldl (fun acc x => if x ∈ acc then acc else acc ++ [x]) acc l
        = acc := by
  intro l
  induction l with
  | nil => intro acc _ _; rfl
  | cons a t ih =>
      intro acc hall hmem
      rw [List.foldl_cons]
      rw [hall a (by simp)]
      rw [if_pos hmem]
      exact ih acc (fun x hx => hall x (by simp [hx])) hmem

lemma distinct_firsts_const {l : List Nat} {e : Nat} (hne : l ≠ [])
    (hall : ∀ x ∈ l, x = e) : distinct_firsts l = [e] := by
  obtain ⟨a, t, rfl⟩ := List.exists_cons_of_ne_nil hne
  unfold distinct_firsts
  rw [List.foldl_cons]
  rw [hall a (by simp)]
  rw [if_neg (List.not_mem_nil e), List.nil_append]
  exact foldl_distinct_mem e t [e]
    (fun x hx => hall x (by simp [hx])) (by simp)

/-- Claim C1: on a dataset holding exactly one freshly created location
annotated with the mapping `M` (each key once), `query_location`
with `M` returns exactly that location; and a location annotated with
only a strict subset of the key/value pairs of `M` is never in the result
of `query_location` with `M`. -/
theorem C1_fresh_location_superset :
    (∀ M : List (String × String), (M.map (fun kv => kv.1)).Nodup →
        query_location (new_location db_empty (some M)).1 (some M)
          = [(new_location db_empty (some M)).2]) ∧
    (∀ (db : DB) (M S : List (String × String)) (L : Nat)
        (kid : String → Nat), S.Sublist M → S ≠ M →
        db.location_annotations.filter (fun r => r.entity_id == L)
          = S.map (fun kv => AnnRow.mk L (kid kv.1) kv.2) →
        L ∉ query_location db (some M)) := by
  constructor
  · intro M hnodup
    cases M with
    | nil => rfl
    | cons kv rest =>
        have hnew : (new_location db_empty (some (kv :: rest))).1
            = annotate_all
                { db_empty with locations := [1], next_location_id := 2 }
                1 (kv :: rest) := rfl
        have hfresh : ∀ k ∈ (kv :: rest).map (fun kv => kv.1),
            lookup_key_id
              { db_empty with locations := [1], next_location_id := 2 } k
              = none := fun k _ => rfl
        obtain ⟨ha, hl, _⟩ := annotate_all_fresh 1 (kv :: rest)
          { db_empty with locations := [1], next_location_id := 2 }
          hnodup hfresh
        have h2 : (new_location db_empty (some (kv :: rest))).2 = 1 := rfl
        rw [h2]
        rw [query_location]
        rw [if_neg (by simp)]
        rw [hnew, ha, hl]
        have hmatch : ∀ r ∈ number_rows 1 1 (kv :: rest),
            ann_cond ([] ++ number_keys 1 (kv :: rest)) (kv :: rest) r
              = true :=
          number_rows_match 1 (kv :: rest) [] 1 hnodup (fun k _ => rfl)
        have hfilter :
            (number_rows 1 1 (kv :: rest)).filter
                (ann_cond (number_keys 1 (kv :: rest)) (kv :: rest))
              = number_rows 1 1 (kv :: rest) :=
          List.filter_eq_self.mpr (fun r hr => hmatch r hr)
        show ((group_count ((List.nil ++ number_rows 1 1 (kv :: rest)).filter
            (ann_cond (List.nil ++ number_keys 1 (kv :: rest))
              (kv :: rest)))).filter
          (fun p => p.2 == (kv :: rest).length)).map (fun p => p.1) = [1]
        rw [List.nil_append, List.nil_append, hfilter]
        unfold group_count
        have hdist : distinct_firsts
            ((number_rows 1 1 (kv :: rest)).map (fun r => r.entity_id))
            = [1] := by
          apply distinct_firsts_const
          · simp [number_rows]
          · intro x hx
            obtain ⟨r, hr, hre⟩ := List.mem_map.mp hx
            rw [← hre]
            exact number_rows_entity 1 (kv :: rest) 1 r hr
        rw [hdist]
        have hcount : ((number_rows 1 1 (kv :: rest)).filter
            (fun r => r.entity_id == 1)).length = (kv :: rest).length := by
          rw [List.filter_eq_self.mpr
            (fun r hr => by
              simp [number_rows_entity 1 (kv :: rest) 1 r hr])]
          exact number_rows_length 1 (kv :: rest) 1
        simp [hcount]
  · intro db M S L kid hsub hne hrows
    have hlt : S.length < M.length :=
      lt_of_le_of_ne hsub.length_le
        (fun hlen => hne (hsub.eq_of_length hlen))
    intro hmem
    have hMne : M ≠ [] := by
      rintro rfl
      rw [List.sublist_nil.mp hsub] at hne
      exact hne rfl
    obtain ⟨a, M2, rfl⟩ := List.exists_cons_of_ne_nil hMne
    rw [query_location, if_neg (by simp)] at hmem
    obtain ⟨p, hpfil, hpL⟩ := List.mem_map.mp hmem
    have hpgc := (List.mem_filter.mp hpfil).1
    have hpc : p.2 = (a :: M2).length := by
      have := (List.mem_filter.mp hpfil).2
      simpa using this
    obtain ⟨e, _, hpe⟩ := List.mem_map.mp hpgc
    have heL : e = L := by rw [← hpL, ← hpe]
    have hplen : p.2 =
        (((a :: M2 : List (String × String)) |> fun M0 =>
            db.location_annotations.filter
              (ann_cond db.annotation_keys M0)).filter
          (fun r => r.entity_id == L)).length := by
      rw [← hpe, ← heL]
    have hle : (((db.location_annotations.filter
          (ann_cond db.annotation_keys (a :: M2))).filter
            (fun r => r.entity_id == L))).length
        ≤ ((db.location_annotations.filter
            (fun r => r.entity_id == L))).length :=
      ((List.filter_sublist db.location_annotations).filter
        (fun r => r.entity_id == L)).length_le
    rw [hrows] at hle
    rw [List.length_map] at hle
    rw [hplen] at hpc
    simp only [] at hpc
    omega

/-- Claim C1, witness. -/
theorem C1_fresh_location_superset_witness :
    query_location
        (new_location db_empty (some [("a", "1"), ("b", "2")])).1
        (some [("a", "1"), ("b", "2")])
      = [(new_location db_empty (some [("a", "1"), ("b", "2")])).2] ∧
    1 ∉ query_location (new_location db_empty (some [("a", "1")])).1
        (some [("a", "1"), ("b", "2")]) :=
  ⟨C1_fresh_location_superset.1 [("a", "1"), ("b", "2")] (by decide),
   C1_fresh_location_superset.2
     (new_location db_empty (some [("a", "1")])).1
     [("a", "1"), ("b", "2")] [("a", "1")] 1 (fun _ => 1)
     (by decide) (by decide) (by decide)⟩

lemma insert_data_ann_found (db : DB) (u k v : String) (did : Nat)
    (h : lookup_data_id_by_uri db u = some did) :
    insert_data_ann db u k v =
      ({ (insert_annotation_key db k).1 with
           data_annotations :=
             (insert_annotation_key db k).1.data_annotations
               ++ [⟨did, (insert_annotation_key db k).2, v⟩] },
       .ok ()) := by
  unfold insert_data_ann
  have h2 : lookup_data_id_by_uri (insert_annotation_key db k).1 u
      = some did := by
    unfold lookup_data_id_by_uri
    rw [(insert_annotation_key_data_fields db k).1]
    exact h
  simp only [h2]

lemma data_ann_all_track :
    ∀ (anns : List (String × String)) (db : DB) (u : String) (did : Nat),
      lookup_data_id_by_uri db u = some did →
      (data_ann_all db u anns).1.data_rows = db.data_rows
      ∧ (data_ann_all db u anns).1.storage_types = db.storage_types
      ∧ (∀ r ∈ (data_ann_all db u anns).1.data_annotations,
          r ∈ db.data_annotations ∨ r.entity_id = did)
      ∧ (data_ann_all db u anns).2 = .ok () := by
  intro anns
  induction anns with
  | nil =>
      intro db u did _
      exact ⟨rfl, rfl, fun r hr => .inl hr, rfl⟩
  | cons kv rest ih =>
      intro db u did h
      have hstep := insert_data_ann_found db u kv.1 kv.2 did h
      have hfields := insert_annotation_key_data_fields db kv.1
      have hchain : data_ann_all db u (kv :: rest)
          = data_ann_all
              { (insert_annotation_key db kv.1).1 with
                  data_annotations :=
                    (insert_annotation_key db kv.1).1.data_annotations
                      ++ [⟨did, (insert_annotation_key db kv.1).2, kv.2⟩] }
              u rest := by
        rw [data_ann_all, hstep]
      have hlook2 : lookup_data_id_by_uri
          ({ (insert_annotation_key db kv.1).1 with
               data_annotations :=
                 (insert_annotation_key db kv.1).1.data_annotations
                   ++ [⟨did, (insert_annotation_key db kv.1).2, kv.2⟩] } : DB)
          u = some did := by
        unfold lookup_data_id_by_uri
        show ((insert_annotation_key db kv.1).1.data_rows.find?
            (fun d => d.uri == u)).map (fun d => d.id) = some did
        rw [hfields.1]
        exact h
      obtain ⟨e1, e2, e3, e4⟩ := ih _ u did hlook2
      rw [hchain]
      refine ⟨?_, ?_, ?_, e4⟩
      · rw [e1]
        show (insert_annotation_key db kv.1).1.data_rows = db.data_rows
        exact hfields.1
      · rw [e2]
        show (insert_annotation_key db kv.1).1.storage_types
          = db.storage_types
        exact hfields.2.2.1
      · intro r hr
        rcases e3 r hr with hmem | hdid
        · have : r ∈ (insert_annotation_key db kv.1).1.data_annotations
              ++ [(⟨did, (insert_annotation_key db kv.1).2, kv.2⟩ : AnnRow)] :=
            hmem
          rcases List.mem_append.mp this with hold | hnew
          · rw [hfields.2.1] at hold
            exact .inl hold
          · rw [List.mem_singleton.mp hnew]
            exact .inr rfl
        · exact .inr hdid

/-- Claim C6: `create_data` with URI `u` followed immediately by
`delete_data` on `u` leaves zero data rows with URI `u` and zero
data-annotation rows referencing the data id minted for `u`, and a
subsequent `create_data` with the same URI succeeds. -/
theorem C6_create_delete_roundtrip (db : DB) (loc : Nat) (u st m : String)
    (anns : List (String × String))
    (hfresh : ∀ d ∈ db.data_rows, d.uri ≠ u)
    (hst : ∃ sid, lookup_storage_type_id db st = some sid) :
    (c6_after db loc u st m anns).data_rows.filter (fun d => d.uri == u)
        = [] ∧
    (c6_after db loc u st m anns).data_annotations.filter
        (fun r => r.entity_id == db.next_data_id) = [] ∧
    ∃ info, (create_data (c6_after db loc u st m anns) (.at_loc loc) u st
        (some anns) (some m)).2 = .ok info := by
  obtain ⟨sid, hs⟩ := hst
  have hany : db.data_rows.any (fun d => d.uri == u) = false := by
    rw [List.any_eq_false]
    intro d hd
    simpa using hfresh d hd
  have hfindnil : db.data_rows.find? (fun d => d.uri == u) = none :=
    List.find?_eq_none.mpr (fun d hd => by simpa using hfresh d hd)
  have hins : insert_data db loc u st m =
      (c6_mid db loc sid u m, .ok db.next_data_id) := by
    simp [insert_data, hs, hany, c6_mid]
  have hmidrows : (c6_mid db loc sid u m).data_rows
      = db.data_rows ++ [⟨db.next_data_id, loc, sid, u, m⟩] := rfl
  have hlookI : lookup_data_id_by_uri (c6_mid db loc sid u m) u
      = some db.next_data_id := by
    unfold lookup_data_id_by_uri
    rw [hmidrows, find?_first_none _ hfindnil]
    simp
  obtain ⟨t1, t2, t3, t4⟩ :=
    data_ann_all_track anns (c6_mid db loc sid u m) u db.next_data_id
      hlookI
  set dbA := (data_ann_all (c6_mid db loc sid u m) u anns).1 with hA
  have hcreate1 : (create_data db (.at_loc loc) u st (some anns)
      (some m)).1 = dbA := by
    rw [hA]
    simp only [create_data, hins, t4]
  have hlookA : lookup_data_id_by_uri dbA u = some db.next_data_id := by
    unfold lookup_data_id_by_uri
    rw [t1, hmidrows, find?_first_none _ hfindnil]
    simp
  have hdel : c6_after db loc u st m anns
      = { dbA with
            data_annotations := dbA.data_annotations.filter
              (fun r => r.entity_id != db.next_data_id),
            data_rows := dbA.data_rows.filter (fun d => d.uri != u) } := by
    rw [c6_after, hcreate1]
    unfold query_delete
    rw [hlookA]
  have hrows2 : (c6_after db loc u st m anns).data_rows
      = db.data_rows := by
    rw [hdel]
    show dbA.data_rows.filter (fun d => d.uri != u) = db.data_rows
    rw [t1, hmidrows]
    rw [List.filter_append]
    have hl : db.data_rows.filter (fun d => d.uri != u) = db.data_rows :=
      List.filter_eq_self.mpr
        (fun d hd => by simpa using hfresh d hd)
    have hr : ([⟨db.next_data_id, loc, sid, u, m⟩] : List DataRow).filter
        (fun d => d.uri != u) = [] := by
      simp
    rw [hl, hr, List.append_nil]
  refine ⟨?_, ?_, ?_⟩
  · rw [hrows2, List.filter_eq_nil_iff]
    intro d hd hp
    exact hfresh d hd (by simpa using hp)
  · rw [hdel]
    show (dbA.data_annotations.filter
          (fun r => r.entity_id != db.next_data_id)).filter
            (fun r => r.entity_id == db.next_data_id) = []
    rw [List.filter_eq_nil_iff]
    intro r hr hp
    have hne := (List.mem_filter.mp hr).2
    rw [bne_iff_ne] at hne
    exact hne (by simpa using hp)
  · have hsto : (c6_after db loc u st m anns).storage_types
        = db.storage_types := by
      rw [hdel]
      show dbA.storage_types = db.storage_types
      rw [t2]
      rfl
    have hs2 : lookup_storage_type_id (c6_after db loc u st m anns) st
        = some sid := by
      unfold lookup_storage_type_id
      rw [hsto]
      exact hs
    have hany2 : (c6_after db loc u st m anns).data_rows.any
        (fun d => d.uri == u) = false := by
      rw [hrows2]
      exact hany
    have hfind2 : (c6_after db loc u st m anns).data_rows.find?
        (fun d => d.uri == u) = none := by
      rw [hrows2]
      exact hfindnil
    have hins2 : insert_data (c6_after db loc u st m anns) loc u st m =
        (c6_mid (c6_after db loc u st m anns) loc sid u m,
         .ok (c6_after db loc u st m anns).next_data_id) := by
      simp [insert_data, hs2, hany2, c6_mid]
    have hlook3 : lookup_data_id_by_uri
        (c6_mid (c6_after db loc u st m anns) loc sid u m) u
        = some (c6_after db loc u st m anns).next_data_id := by
      unfold lookup_data_id_by_uri
      show (((c6_after db loc u st m anns).data_rows
          ++ ([⟨(c6_after db loc u st m anns).next_data_id, loc, sid,
               u, m⟩] : List DataRow)).find? (fun d => d.uri == u)).map
          (fun d => d.id)
        = some (c6_after db loc u st m anns).next_data_id
      rw [find?_first_none _ hfind2]
      simp
    have htrack2 := data_ann_all_track anns
      (c6_mid (c6_after db loc u st m anns) loc sid u m) u
      (c6_after db loc u st m anns).next_data_id hlook3
    refine ⟨⟨loc, st, m, u⟩, ?_⟩
    simp only [create_data, hins2, htrack2.2.2.2]

/-- Claim C6, witness. -/
theorem C6_create_delete_roundtrip_witness :
    (c6_after (db_init [(1, "image")]) 1 "u" "image" ""
        [("k", "v")]).data_rows.filter (fun d => d.uri == "u") = [] ∧
    (c6_after (db_init [(1, "image")]) 1 "u" "image" ""
        [("k", "v")]).data_annotations.filter
          (fun r => r.entity_id == (db_init [(1, "image")]).next_data_id)
        = [] ∧
    ∃ info, (create_data
        (c6_after (db_init [(1, "image")]) 1 "u" "image" "" [("k", "v")])
        (.at_loc 1) "u" "image" (some [("k", "v")]) (some "")).2
      = .ok info :=
  C6_create_delete_roundtrip (db_init [(1, "image")]) 1 "u" "image" ""
    [("k", "v")] (by decide) ⟨1, rfl⟩

end SxtLocal
